import Mathlib

/-!
Verification of the cultmagic recommendation backend against its
natural-language specification.

The Python sources under `backend/` are shallowly embedded here:

* JSON values exchanged with the upstream taste-graph API are modelled by the
  inductive type `Json` (numbers as rationals, objects as ordered key/value
  lists, mirroring `dict` insertion order as far as lookups are concerned).
* Each outgoing HTTP call is modelled by an `HttpOutcome` oracle supplied as a
  parameter: either the call raised an exception (`exn`, covering transport
  failures, timeouts and unparseable response bodies — every call site in the
  source handles a `requests` exception and a `response.json()` failure
  identically) or it returned a parsed body together with the `response.ok`
  flag.
* Python dynamic-dispatch failures (`AttributeError`, `TypeError`, `KeyError`)
  raised while traversing an upstream body are modelled by `Except Unit`
  results of the small `py*` helpers below, which reproduce the semantics of
  `in`, subscripting, `len`, slicing and `dict.get` on our `Json` values.
* Database tables are modelled as lists of rows; SQLAlchemy `first()` is
  `List.find?`, an update mutates the first matching row.
-/

/-- JSON values as handled by the backend; numbers are rationals. -/
inductive Json where
  | null : Json
  | bool : Bool → Json
  | num : Rat → Json
  | str : String → Json
  | arr : List Json → Json
  | obj : List (String × Json) → Json
deriving Repr

/-- First value bound to key `k`, mirroring Python `dict` lookup. -/
def objLookup (kvs : List (String × Json)) (k : String) : Option Json :=
  (kvs.find? (fun p => p.fst == k)).map Prod.snd

/-- Python truthiness of a JSON value (`bool(x)`). -/
def jsonTruthy : Json → Bool
  | Json.null => false
  | Json.bool b => b
  | Json.num q => if q = 0 then false else true
  | Json.str s => if s = "" then false else true
  | Json.arr xs => if xs.isEmpty then false else true
  | Json.obj kvs => if kvs.isEmpty then false else true

/-- Truthiness of an optional Python value (`None` is falsy). -/
def optTruthy : Option Json → Bool
  | none => false
  | some v => jsonTruthy v

/-- Whether the Python string `k` occurs in the list `xs`
(`k in xs` where `xs` is a `list`): string elements are compared by value,
elements of any other type compare unequal to a string. -/
def listHasStr (k : String) (xs : List Json) : Bool :=
  xs.any (fun x =>
    match x with
    | Json.str s => s == k
    | _ => false)

/-- Whether `k` occurs as a substring of `s` (`k in s` for Python strings). -/
def strHasSub (k s : String) : Bool :=
  if k = "" then true else decide (2 ≤ (s.splitOn k).length)

/-- Python `k in v`: key membership for objects, element membership for
arrays, substring test for strings; a `TypeError` for the remaining types. -/
def pyIn (k : String) : Json → Except Unit Bool
  | Json.obj kvs => Except.ok (objLookup kvs k).isSome
  | Json.arr xs => Except.ok (listHasStr k xs)
  | Json.str s => Except.ok (strHasSub k s)
  | _ => Except.error ()

/-- Python `v[k]` for a string key: object lookup (`KeyError` when the key is
missing), `TypeError` on every other type. -/
def pySubscript (v : Json) (k : String) : Except Unit Json :=
  match v with
  | Json.obj kvs =>
    match objLookup kvs k with
    | some w => Except.ok w
    | none => Except.error ()
  | _ => Except.error ()

/-- Python `len(v)`: defined for arrays, objects and strings. -/
def pyLen : Json → Except Unit Nat
  | Json.arr xs => Except.ok xs.length
  | Json.obj kvs => Except.ok kvs.length
  | Json.str s => Except.ok s.length
  | _ => Except.error ()

/-- Python `v[0]`: first array element (`IndexError` when empty), first
character of a string, error otherwise. -/
def pyIndex0 : Json → Except Unit Json
  | Json.arr [] => Except.error ()
  | Json.arr (x :: _) => Except.ok x
  | Json.str s =>
    match s.toList with
    | [] => Except.error ()
    | c :: _ => Except.ok (Json.str (String.singleton c))
  | _ => Except.error ()

/-- Collapse a present JSON `null` to Python `None`. -/
def pyNone (v : Option Json) : Option Json :=
  match v with
  | some Json.null => none
  | some w => some w
  | none => none

/-- Python `v.get(k)`: only objects have `.get` (`AttributeError` otherwise);
an absent key and a present `null` value both come back as `None`. -/
def pyDotGet (v : Json) (k : String) : Except Unit (Option Json) :=
  match v with
  | Json.obj kvs => Except.ok (pyNone (objLookup kvs k))
  | _ => Except.error ()

/-- Python `v.get(k, d)`: the default applies only to a missing key, a present
`null` value is returned as is. -/
def pyDotGetD (v : Json) (k : String) (d : Json) : Except Unit Json :=
  match v with
  | Json.obj kvs => Except.ok ((objLookup kvs k).getD d)
  | _ => Except.error ()

/-- Outcome of one upstream HTTP call: an exception (transport failure or a
body that `response.json()` cannot parse — every call site treats the two
identically), or a parsed body together with the `response.ok` flag. -/
inductive HttpOutcome where
  | exn : HttpOutcome
  | resp : Bool → Json → HttpOutcome

/-- Environment configuration relevant to the routes: the upstream API key
(`QLOO_API_KEY`, absent or empty means unconfigured). -/
structure Config where
  apiKey : Option String

/-- Python truthiness of the configured API key (`if not QLOO_API_KEY`). -/
def keyTruthy (cfg : Config) : Bool :=
  match cfg.apiKey with
  | some s => if s = "" then false else true
  | none => false

/-- Body parsing of `fetch_entity_id` (routes.py lines 56-65): prefer the
`{"results": [...]}` shape, fall back to a bare array whose first element
contains `entity_id`; dynamic type errors abort (they are caught by the
enclosing `except` and turned into `None`). -/
def fetchEntityParse (body : Json) : Except Unit (Option Json) := do
  let c1 ← pyIn ("results") body
  let cond1 ←
    if c1 then do
      let r ← pySubscript body ("results")
      let n ← pyLen r
      Except.ok (decide (0 < n))
    else Except.ok false
  if cond1 then do
    let r ← pySubscript body ("results")
    let first ← pyIndex0 r
    pyDotGet first ("entity_id")
  else
    match body with
    | Json.arr [] => Except.ok none
    | Json.arr (x :: _) => do
      let c ← pyIn ("entity_id") x
      if c then do
        let v ← pySubscript x ("entity_id")
        Except.ok (pyNone (some v))
      else Except.ok none
    | _ => Except.ok none

/-- Entity id extracted from an ok search response body; any dynamic error is
swallowed by `fetch_entity_id`'s blanket `except` and becomes `None`. -/
def entityFromBody (body : Json) : Option Json :=
  match fetchEntityParse body with
  | Except.ok v => v
  | Except.error _ => none

/-- Embedding of `fetch_entity_id` (routes.py lines 44-67): missing API key,
a raised exception, a non-ok status and an unmatched body all yield `None`.
The `name`/`entityType` arguments shape the upstream request, whose outcome
is supplied by the oracle `o`. -/
def fetch_entity_id (cfg : Config) (name entityType : String) (o : HttpOutcome) :
    Option Json :=
  if keyTruthy cfg then
    match o with
    | HttpOutcome.exn => none
    | HttpOutcome.resp ok body => if ok then entityFromBody body else none
  else none

@[simp] theorem exceptOkBind {α β ε : Type} (a : α) (f : α → Except ε β) :
    (Except.ok a : Except ε α) >>= f = f a := rfl

@[simp] theorem exceptErrBind {α β ε : Type} (e : ε) (f : α → Except ε β) :
    (Except.error e : Except ε α) >>= f = Except.error e := rfl

/-- Whether a JSON value is an object containing the key `entity_id`. -/
def objWithEntityId : Json → Bool
  | Json.obj kvs => (objLookup kvs ("entity_id")).isSome
  | _ => false

/-- Whether every element of the list is an object containing `entity_id`. -/
def allObjWithEntityId (xs : List Json) : Bool :=
  xs.all objWithEntityId

theorem listHasStr_of_allObj (k : String) (xs : List Json)
    (h : allObjWithEntityId xs = true) : listHasStr k xs = false := by
  induction xs with
  | nil => rfl
  | cons x rest ih =>
    rw [allObjWithEntityId, List.all_cons, Bool.and_eq_true] at h
    have hx := h.1
    have hrest : listHasStr k rest = false := ih h.2
    cases x <;> simp [objWithEntityId] at hx <;>
      simp [listHasStr, List.any_cons] at hrest ⊢ <;> exact hrest

theorem entityFromBody_shape (xs : List Json) (h : allObjWithEntityId xs = true) :
    entityFromBody (Json.arr xs) =
      entityFromBody (Json.obj [(("results"), Json.arr xs)]) := by
  cases xs with
  | nil => rfl
  | cons x rest =>
    have hno : listHasStr ("results") (x :: rest) = false :=
      listHasStr_of_allObj _ _ h
    have hx : objWithEntityId x = true := by
      rw [allObjWithEntityId, List.all_cons, Bool.and_eq_true] at h
      exact h.1
    cases x with
    | obj kvs =>
      rw [objWithEntityId] at hx
      obtain ⟨v, hv⟩ := Option.isSome_iff_exists.mp hx
      simp only [objLookup] at hv
      simp [entityFromBody, fetchEntityParse, pyIn, pySubscript, pyLen,
        pyIndex0, pyDotGet, objLookup, hno, hv]
    | null => simp [objWithEntityId] at hx
    | bool b => simp [objWithEntityId] at hx
    | num q => simp [objWithEntityId] at hx
    | str s => simp [objWithEntityId] at hx
    | arr ys => simp [objWithEntityId] at hx

/-- C6: for every name and category, resolving against an upstream response
given as a bare array of objects containing `entity_id` and resolving against
the same logical data wrapped as `{results: [...]}` yield the same entity
id. -/
theorem fetch_entity_id_shape_agnostic (cfg : Config) (name entityType : String)
    (xs : List Json) (hkey : keyTruthy cfg = true)
    (hobjs : allObjWithEntityId xs = true) :
    fetch_entity_id cfg name entityType (HttpOutcome.resp true (Json.arr xs)) =
      fetch_entity_id cfg name entityType
        (HttpOutcome.resp true (Json.obj [(("results"), Json.arr xs)])) := by
  simp only [fetch_entity_id, hkey, if_true]
  exact entityFromBody_shape xs hobjs

/-- Witness for C6 at a concrete one-element result list. -/
theorem fetch_entity_id_shape_agnostic_witness :
    fetch_entity_id ⟨some ("k")⟩ ("dune") ("book")
        (HttpOutcome.resp true
          (Json.arr [Json.obj [(("entity_id"), Json.str ("e1"))]])) =
      fetch_entity_id ⟨some ("k")⟩ ("dune") ("book")
        (HttpOutcome.resp true (Json.obj [(("results"),
          Json.arr [Json.obj [(("entity_id"), Json.str ("e1"))]])])) :=
  fetch_entity_id_shape_agnostic ⟨some ("k")⟩ ("dune") ("book")
    [Json.obj [(("entity_id"), Json.str ("e1"))]] rfl rfl

/-- C8: the entity resolver returns `None` — and, being a total function into
`Option`, never raises or propagates an error — on a transport failure
(`exn`), on a non-ok upstream status, and when the upstream body contains no
matching entity (`entityFromBody` finds none). -/
theorem fetch_entity_id_silent_failure (cfg : Config) (name entityType : String)
    (o : HttpOutcome)
    (h : o = HttpOutcome.exn ∨ (∃ b, o = HttpOutcome.resp false b) ∨
      (∃ b, o = HttpOutcome.resp true b ∧ entityFromBody b = none)) :
    fetch_entity_id cfg name entityType o = none := by
  rcases h with h | ⟨b, h⟩ | ⟨b, h, hb⟩ <;> subst h
  · simp [fetch_entity_id]
  · simp [fetch_entity_id]
  · simp [fetch_entity_id, hb]

/-- Witness for C8 at a concrete transport failure. -/
theorem fetch_entity_id_silent_failure_witness :
    fetch_entity_id ⟨some ("k")⟩ ("dune") ("book") HttpOutcome.exn = none :=
  fetch_entity_id_silent_failure ⟨some ("k")⟩ ("dune") ("book")
    HttpOutcome.exn (Or.inl rfl)

/-- An HTTP error surfaced to the caller (FastAPI `HTTPException`). -/
structure HttpError where
  code : Nat
  detail : String
deriving DecidableEq

/-- Request body of `POST /search`. -/
structure SearchInput where
  query : String
  entity_type : String

/-- The normalized entity record built by the `/search` fallback path
(routes.py lines 204-231); `image` is emitted under both the `image` and
`image_url` keys, optional attributes are `Option`-valued. -/
structure Entity where
  entity_id : Option Json
  name : Json
  etype : String
  image : Option Json
  rating : Option Json
  rating_count : Option Json
  author : Option Json
  short_description : Option Json
  description : Option Json
  publication_year : Option Json
  publication_date : Option Json
  genre : Option Json
  page_count : Option Json
  language : Option Json
  publisher : Option Json
  isbn13 : Option Json
  format : Option Json
  properties_image : Option Json
  external_ids : Option Json

/-- The image fallback of last resort (routes.py line 201):
`details.get('properties', {}).get('image', {}).get('url') if
details.get('properties') else None`. -/
def imageFromProps (details : Json) : Except Unit (Option Json) := do
  let p ← pyDotGet details ("properties")
  match p with
  | some pv =>
    if jsonTruthy pv then do
      let im ← pyDotGetD pv ("image") (Json.obj [])
      pyDotGet im ("url")
    else Except.ok none
  | none => Except.ok none

/-- One `details.get(k) or details.get('properties', {}).get(k)` fallback
(routes.py lines 214-223); like Python `or` it returns the second operand
even when that is falsy, and evaluates it only when the first is falsy. -/
def propField (details : Json) (k : String) : Except Unit (Option Json) := do
  let a ← pyDotGet details k
  if optTruthy a then Except.ok a
  else do
    let p ← pyDotGetD details ("properties") (Json.obj [])
    pyDotGet p k

/-- The goodreads cross-reference id (routes.py line 229):
`details.get('goodreads_id') or details.get('external', {}).get('goodreads')`. -/
def goodreadsVal (details : Json) : Except Unit (Option Json) := do
  let a ← pyDotGet details ("goodreads_id")
  if optTruthy a then Except.ok a
  else do
    let p ← pyDotGetD details ("external") (Json.obj [])
    pyDotGet p ("goodreads")

/-- The ordered `image_url`/`image`/`cover_image`/nested-properties image
fallback (routes.py lines 197-202). -/
def imageValue (details : Json) : Except Unit (Option Json) := do
  let a1 ← pyDotGet details ("image_url")
  if optTruthy a1 then Except.ok a1
  else do
    let a2 ← pyDotGet details ("image")
    if optTruthy a2 then Except.ok a2
    else do
      let a3 ← pyDotGet details ("cover_image")
      if optTruthy a3 then Except.ok a3
      else imageFromProps details

/-- Embedding of the result-normalization block of `search_entities`
(routes.py lines 196-231): ordered-fallback merge of one raw upstream record
into an `Entity`. A Python dynamic error (for example a non-dict record or a
non-dict `properties` value) is an `Except.error`, caught further out. -/
def normalizeRecord (query entityType : String) (details : Json) :
    Except Unit Entity := do
  let image ← imageValue details
  let eid ← pyDotGet details ("entity_id")
  let nameV ← pyDotGetD details ("name") (Json.str query)
  let rating ← pyDotGet details ("rating")
  let ratingCount ← pyDotGet details ("rating_count")
  let author ← pyDotGet details ("author")
  let shortDescription ← propField details ("short_description")
  let description ← propField details ("description")
  let publicationYear ← propField details ("publication_year")
  let publicationDate ← propField details ("publication_date")
  let genre ← propField details ("genre")
  let pageCount ← propField details ("page_count")
  let language ← propField details ("language")
  let publisher ← propField details ("publisher")
  let isbn13 ← propField details ("isbn13")
  let format ← propField details ("format")
  let gr ← goodreadsVal details
  Except.ok
    { entity_id := eid
      name := nameV
      etype := entityType
      image := image
      rating := rating
      rating_count := ratingCount
      author := author
      short_description := shortDescription
      description := description
      publication_year := publicationYear
      publication_date := publicationDate
      genre := genre
      page_count := pageCount
      language := language
      publisher := publisher
      isbn13 := isbn13
      format := format
      properties_image :=
        match image with
        | some iv =>
          if jsonTruthy iv then some (Json.obj [(("url"), iv)]) else none
        | none => none
      external_ids :=
        match gr with
        | some gv =>
          if jsonTruthy gv then some (Json.obj [(("goodreads"), gv)]) else none
        | none => none }

@[simp] theorem objLookup_nil (k : String) : objLookup [] k = none := rfl

/-- Every source key the normalizer consults for an optional attribute of the
output record. -/
def optionalSourceKeys : List String :=
  [("image_url"), ("image"), ("cover_image"), ("properties"), ("rating"),
    ("rating_count"), ("author"), ("short_description"), ("description"),
    ("publication_year"), ("publication_date"), ("genre"), ("page_count"),
    ("language"), ("publisher"), ("isbn13"), ("format"), ("goodreads_id"),
    ("external")]

/-- C7: on a raw record that lacks every optional source field, normalization
is total (it returns `Except.ok`, never a raised error) and every optional
attribute of the produced entity is absent. -/
theorem normalizeRecord_total_on_bare (query entityType : String)
    (kvs : List (String × Json))
    (h : ∀ k ∈ optionalSourceKeys, objLookup kvs k = none) :
    ∃ e, normalizeRecord query entityType (Json.obj kvs) = Except.ok e ∧
      e.image = none ∧ e.rating = none ∧ e.rating_count = none ∧
      e.author = none ∧ e.short_description = none ∧ e.description = none ∧
      e.publication_year = none ∧ e.publication_date = none ∧
      e.genre = none ∧ e.page_count = none ∧ e.language = none ∧
      e.publisher = none ∧ e.isbn13 = none ∧ e.format = none ∧
      e.properties_image = none ∧ e.external_ids = none := by
  have h1 := h ("image_url") (by simp [optionalSourceKeys])
  have h2 := h ("image") (by simp [optionalSourceKeys])
  have h3 := h ("cover_image") (by simp [optionalSourceKeys])
  have h4 := h ("properties") (by simp [optionalSourceKeys])
  have h5 := h ("rating") (by simp [optionalSourceKeys])
  have h6 := h ("rating_count") (by simp [optionalSourceKeys])
  have h7 := h ("author") (by simp [optionalSourceKeys])
  have h8 := h ("short_description") (by simp [optionalSourceKeys])
  have h9 := h ("description") (by simp [optionalSourceKeys])
  have h10 := h ("publication_year") (by simp [optionalSourceKeys])
  have h11 := h ("publication_date") (by simp [optionalSourceKeys])
  have h12 := h ("genre") (by simp [optionalSourceKeys])
  have h13 := h ("page_count") (by simp [optionalSourceKeys])
  have h14 := h ("language") (by simp [optionalSourceKeys])
  have h15 := h ("publisher") (by simp [optionalSourceKeys])
  have h16 := h ("isbn13") (by simp [optionalSourceKeys])
  have h17 := h ("format") (by simp [optionalSourceKeys])
  have h18 := h ("goodreads_id") (by simp [optionalSourceKeys])
  have h19 := h ("external") (by simp [optionalSourceKeys])
  have hres : normalizeRecord query entityType (Json.obj kvs) = Except.ok
      { entity_id := pyNone (objLookup kvs ("entity_id"))
        name := (objLookup kvs ("name")).getD (Json.str query)
        etype := entityType
        image := none
        rating := none
        rating_count := none
        author := none
        short_description := none
        description := none
        publication_year := none
        publication_date := none
        genre := none
        page_count := none
        language := none
        publisher := none
        isbn13 := none
        format := none
        properties_image := none
        external_ids := none } := by
    simp [normalizeRecord, imageValue, imageFromProps, propField, goodreadsVal,
      pyDotGet, pyDotGetD, pyNone, optTruthy, h1, h2, h3, h4, h5, h6,
      h7, h8, h9, h10, h11, h12, h13, h14, h15, h16, h17, h18, h19]
  exact ⟨_, hres, rfl, rfl, rfl, rfl, rfl, rfl, rfl, rfl, rfl, rfl, rfl, rfl,
    rfl, rfl, rfl, rfl⟩

/-- Witness for C7 at a concrete record carrying only `entity_id`. -/
theorem normalizeRecord_total_on_bare_witness :
    ∃ e, normalizeRecord ("dune") ("book")
        (Json.obj [(("entity_id"), Json.str ("e1"))]) = Except.ok e ∧
      e.image = none ∧ e.rating = none ∧ e.rating_count = none ∧
      e.author = none ∧ e.short_description = none ∧ e.description = none ∧
      e.publication_year = none ∧ e.publication_date = none ∧
      e.genre = none ∧ e.page_count = none ∧ e.language = none ∧
      e.publisher = none ∧ e.isbn13 = none ∧ e.format = none ∧
      e.properties_image = none ∧ e.external_ids = none :=
  normalizeRecord_total_on_bare ("dune") ("book")
    [(("entity_id"), Json.str ("e1"))]
    (by intro k hk; fin_cases hk <;> rfl)

/-- Upstream call outcomes a single `POST /search` request can observe:
`searchA` is the `/search` call made by `fetch_entity_id`, `insightsA` the
`/v2/insights` detail call for the resolved entity id, `searchB` the direct
`/search` fallback call, and `insightsB` the per-result detail calls of the
fallback loop, keyed by entity id. -/
structure SearchUpstream where
  searchA : HttpOutcome
  insightsA : Json → HttpOutcome
  searchB : HttpOutcome
  insightsB : Json → HttpOutcome

/-- Traversal `data['results']['entities']` guarded by
`'results' in data and 'entities' in data['results']`
(routes.py lines 150-153); `ok none` means the guard failed and control falls
through, an error is a Python dynamic error. -/
def resultsEntities (body : Json) : Except Unit (Option Json) := do
  let c1 ← pyIn ("results") body
  if c1 then do
    let r ← pySubscript body ("results")
    let c2 ← pyIn ("entities") r
    if c2 then do
      let es ← pySubscript r ("entities")
      Except.ok (some es)
    else Except.ok none
  else Except.ok none

/-- The insights detail call for the entity id resolved by the first stage of
`search_entities` (routes.py lines 136-153). This region is guarded only by
the route's outermost `try`, whose handler raises `HTTPException(500)`: an
exception here, or a dynamic error while traversing the body, surfaces as a
500 to the caller. A non-ok status or a non-matching shape falls through
(`ok none`). -/
def insightsDetailStep (o : HttpOutcome) : Except HttpError (Option Json) :=
  match o with
  | HttpOutcome.exn =>
    Except.error ⟨500, ("Search failed: upstream exception")⟩
  | HttpOutcome.resp ok body =>
    if ok then
      match resultsEntities body with
      | Except.ok r => Except.ok r
      | Except.error _ =>
        Except.error ⟨500, ("Search failed: type error")⟩
    else Except.ok none

/-- The per-result insights lookup of the fallback loop (routes.py lines
174-191): wrapped in its own `try`, every failure leaves `full_details` as
`None`. -/
def detailLookup (o : HttpOutcome) : Option Json :=
  match o with
  | HttpOutcome.exn => none
  | HttpOutcome.resp ok body =>
    if ok then
      match detailParseOk body with
      | Except.ok r => r
      | Except.error _ => none
    else none
where
  /-- Guarded traversal `insights_data['results']['entities'][0]` of the
  per-result lookup (routes.py lines 187-189). -/
  detailParseOk (body : Json) : Except Unit (Option Json) := do
    let c1 ← pyIn ("results") body
    if c1 then do
      let r ← pySubscript body ("results")
      let c2 ← pyIn ("entities") r
      if c2 then do
        let es ← pySubscript r ("entities")
        let n ← pyLen es
        if 0 < n then do
          let first ← pyIndex0 es
          Except.ok (some first)
        else Except.ok none
      else Except.ok none
    else Except.ok none

/-- Python `v[:5]`: the first five elements of a list, the first five
characters of a string (as one-character strings, the shape the subsequent
`for` loop iterates over), `TypeError` otherwise. -/
def pySlice5 : Json → Except Unit (List Json)
  | Json.arr xs => Except.ok (xs.take 5)
  | Json.str s =>
    Except.ok ((s.toList.take 5).map (fun c => Json.str (String.singleton c)))
  | _ => Except.error ()

/-- One iteration of the fallback loop (routes.py lines 168-232): read the
search result's `entity_id`, attempt the full-detail lookup when it is
truthy, fall back to the search result itself when the lookup produced
nothing truthy, and normalize. -/
def buildOne (query entityType : String) (insightsB : Json → HttpOutcome)
    (result : Json) : Except Unit Entity := do
  let eid ← pyDotGet result ("entity_id")
  let fullDetails :=
    match eid with
    | some v => if jsonTruthy v then detailLookup (insightsB v) else none
    | none => none
  let details :=
    match fullDetails with
    | some v => if jsonTruthy v then v else result
    | none => result
  normalizeRecord query entityType details

/-- The fallback loop over the first five search results. -/
def buildEntities (query entityType : String) (insightsB : Json → HttpOutcome) :
    List Json → Except Unit (List Entity)
  | [] => Except.ok []
  | r :: rs => do
    let e ← buildOne query entityType insightsB r
    let es ← buildEntities query entityType insightsB rs
    Except.ok (e :: es)

/-- Serialization of a normalized entity into the response JSON
(routes.py lines 204-231). -/
def entityToJson (e : Entity) : Json :=
  Json.obj
    [(("entity_id"), (e.entity_id).getD Json.null),
      (("name"), e.name),
      (("type"), Json.str e.etype),
      (("image"), (e.image).getD Json.null),
      (("image_url"), (e.image).getD Json.null),
      (("rating"), (e.rating).getD Json.null),
      (("rating_count"), (e.rating_count).getD Json.null),
      (("author"), (e.author).getD Json.null),
      (("properties"), Json.obj
        [(("short_description"), (e.short_description).getD Json.null),
          (("description"), (e.description).getD Json.null),
          (("publication_year"), (e.publication_year).getD Json.null),
          (("publication_date"), (e.publication_date).getD Json.null),
          (("genre"), (e.genre).getD Json.null),
          (("page_count"), (e.page_count).getD Json.null),
          (("language"), (e.language).getD Json.null),
          (("publisher"), (e.publisher).getD Json.null),
          (("isbn13"), (e.isbn13).getD Json.null),
          (("format"), (e.format).getD Json.null),
          (("image"), (e.properties_image).getD Json.null)]),
      (("external"), (e.external_ids).getD Json.null)]

/-- An empty `{"results": []}` response. -/
def emptyResults : Json :=
  Json.obj [(("results"), Json.arr [])]

/-- Body of the fallback block's inner `try` (routes.py lines 156-233),
run on an ok direct-search response. -/
def fallbackParse (input : SearchInput) (up : SearchUpstream) (body : Json) :
    Except Unit Json := do
  let c1 ← pyIn ("results") body
  let cond ←
    if c1 then do
      let r ← pySubscript body ("results")
      let n ← pyLen r
      Except.ok (decide (0 < n))
    else Except.ok false
  if cond then do
    let r ← pySubscript body ("results")
    let first5 ← pySlice5 r
    let es ← buildEntities input.query input.entity_type up.insightsB first5
    Except.ok (Json.obj [(("results"), Json.arr (es.map entityToJson))])
  else Except.ok emptyResults

/-- The whole fallback stage (routes.py lines 155-238): any exception inside
the inner `try` is absorbed by `except: pass`, after which the route returns
`{"results": []}`; the stage always produces a well-formed body. -/
def fallbackStage (input : SearchInput) (up : SearchUpstream) : Json :=
  match up.searchB with
  | HttpOutcome.exn => emptyResults
  | HttpOutcome.resp ok body =>
    if ok then
      match fallbackParse input up body with
      | Except.ok r => r
      | Except.error _ => emptyResults
    else emptyResults

/-- The first stage of `search_entities`: resolve an entity id, and when it
is truthy run the insights detail call (the only region whose failures reach
the route's outermost `except` and become a 500). -/
def detailStage (input : SearchInput) (cfg : Config) (up : SearchUpstream) :
    Except HttpError (Option Json) :=
  match fetch_entity_id cfg input.query input.entity_type up.searchA with
  | some v =>
    if jsonTruthy v then insightsDetailStep (up.insightsA v)
    else Except.ok none
  | none => Except.ok none

/-- Embedding of the `POST /search` handler `search_entities`
(routes.py lines 128-240). -/
def search_entities (input : SearchInput) (cfg : Config) (up : SearchUpstream) :
    Except HttpError Json :=
  match detailStage input cfg up with
  | Except.error e => Except.error e
  | Except.ok (some ents) => Except.ok (Json.obj [(("results"), ents)])
  | Except.ok none => Except.ok (fallbackStage input up)

/-- C3 counterexample: when the search call resolves an entity id but the
subsequent insights detail call raises, `search_entities` surfaces a 500 to
the caller — upstream flakiness does produce a 5xx on this path. -/
theorem search_entities_5xx_counterexample :
    search_entities ⟨("dune"), ("book")⟩ ⟨some ("k")⟩
        ⟨HttpOutcome.resp true (Json.obj [(("results"),
            Json.arr [Json.obj [(("entity_id"), Json.str ("e1"))]])]),
          fun _ => HttpOutcome.exn,
          HttpOutcome.exn,
          fun _ => HttpOutcome.exn⟩ =
      Except.error ⟨500, ("Search failed: upstream exception")⟩ := rfl

theorem fetch_entity_id_exn (cfg : Config) (name entityType : String) :
    fetch_entity_id cfg name entityType HttpOutcome.exn = none := by
  unfold fetch_entity_id
  split <;> rfl

/-- C3 amended: a failure of the initial upstream search call always degrades
to a well-formed response, and whenever the resolved-id insights detail step
does not raise (the `detailStage` is not an error), the response is
well-formed whatever the fallback search and per-result insights calls do;
the detail step is the only source of a 5xx for upstream flakiness. -/
theorem search_entities_degrades_amended (input : SearchInput) (cfg : Config)
    (up : SearchUpstream) :
    (up.searchA = HttpOutcome.exn →
      ∃ r, search_entities input cfg up = Except.ok r) ∧
    (∀ x, detailStage input cfg up = Except.ok x →
      ∃ r, search_entities input cfg up = Except.ok r) := by
  constructor
  · intro h
    refine ⟨fallbackStage input up, ?_⟩
    simp [search_entities, detailStage, h, fetch_entity_id_exn]
  · intro x h
    cases x with
    | none => exact ⟨fallbackStage input up, by simp [search_entities, h]⟩
    | some ents =>
      exact ⟨Json.obj [(("results"), ents)], by simp [search_entities, h]⟩

/-- Witness for the C3 amended theorem at a concrete failing search call. -/
theorem search_entities_degrades_amended_witness :
    ∃ r, search_entities ⟨("dune"), ("book")⟩ ⟨some ("k")⟩
        ⟨HttpOutcome.exn, fun _ => HttpOutcome.exn, HttpOutcome.exn,
          fun _ => HttpOutcome.exn⟩ = Except.ok r :=
  (search_entities_degrades_amended ⟨("dune"), ("book")⟩ ⟨some ("k")⟩
    ⟨HttpOutcome.exn, fun _ => HttpOutcome.exn, HttpOutcome.exn,
      fun _ => HttpOutcome.exn⟩).1 rfl

/-- A row of the `users` table (database.py lines 49-61). -/
structure Account where
  id : Nat
  username : String
  email : String
  hashed_password : String

/-- A row of the `user_preferences` table (database.py lines 64-77); all five
preference columns are nullable strings. -/
structure PrefRow where
  id : Nat
  user_id : Nat
  movie_name : Option String
  book_name : Option String
  place_name : Option String
  age : Option String
  gender : Option String

/-- A row of the `saved_items` table (database.py lines 80-94). -/
structure SavedRow where
  id : Nat
  user_id : Nat
  item_id : String
  item_name : String
  item_type : String
  item_image : String
  item_description : String
  favorited : Bool

/-- The relational store: one list per table. -/
structure DB where
  users : List Account
  prefs : List PrefRow
  saved : List SavedRow

/-- Login request body. -/
structure UserLogin where
  username : String
  password : String

/-- Issued bearer token response. -/
structure Token where
  access_token : String
  token_type : String

/-- Embedding of the `POST /login` handler (auth_routes.py lines 75-98).
`verify` stands for `verify_password` and `issue` for `create_access_token`
(both live in `app/auth.py`, which is not part of the sources; the claim
about this route holds for every choice of these two functions, so they are
universally quantified parameters rather than modelled functions). -/
def login (verify : String → String → Bool) (issue : String → String)
    (users : List Account) (cred : UserLogin) : Except HttpError Token :=
  match users.find? (fun u => u.username == cred.username) with
  | none => Except.error ⟨401, ("Incorrect username or password")⟩
  | some u =>
    if verify cred.password u.hashed_password then
      Except.ok ⟨issue u.username, ("bearer")⟩
    else Except.error ⟨401, ("Incorrect username or password")⟩

/-- C2: with an unknown username and with a known username but a password
that fails verification, `login` fails with the very same error — status 401
and the message `Incorrect username or password` — so the response cannot
distinguish the two cases. -/
theorem login_uniform_error (verify : String → String → Bool)
    (issue : String → String) (users : List Account) (cred : UserLogin)
    (h : users.find? (fun u => u.username == cred.username) = none ∨
      (∃ u, users.find? (fun u => u.username == cred.username) = some u ∧
        verify cred.password u.hashed_password = false)) :
    login verify issue users cred =
      Except.error ⟨401, ("Incorrect username or password")⟩ := by
  rcases h with h | ⟨u, h, hv⟩
  · simp [login, h]
  · simp [login, h, hv]

/-- Witness for C2: a store holding `alice`, queried for the unknown `bob`. -/
theorem login_uniform_error_witness :
    login (fun p hp => p == hp) (fun u => u)
        [⟨1, ("alice"), ("a@x.com"), ("pw")⟩] ⟨("bob"), ("pw")⟩ =
      Except.error ⟨401, ("Incorrect username or password")⟩ :=
  login_uniform_error (fun p hp => p == hp) (fun u => u)
    [⟨1, ("alice"), ("a@x.com"), ("pw")⟩] ⟨("bob"), ("pw")⟩ (Or.inl rfl)

/-- Request body of `POST /save` (saved_items_routes.py lines 18-24). -/
structure SaveReq where
  item_id : String
  item_name : String
  item_type : String
  item_image : String
  item_description : String
  favorited : Bool

/-- The duplicate check of `save_item`: same account and same external id. -/
def matchesPair (uid : Nat) (iid : String) (r : SavedRow) : Bool :=
  r.user_id == uid && r.item_id == iid

/-- Mutating the first row matching `(uid, iid)` to the new favorited flag,
as the ORM does to the row returned by `.first()`. -/
def updateFirstFav : List SavedRow → Nat → String → Bool → List SavedRow
  | [], _, _, _ => []
  | r :: rs, uid, iid, f =>
    if matchesPair uid iid r then { r with favorited := f } :: rs
    else r :: updateFirstFav rs uid iid f

/-- Database effect of the `POST /save` handler (saved_items_routes.py lines
41-133) for the authenticated account `uid`: a missing `item_id`/`item_name`
is rejected with a 400 before any write; an existing `(uid, item_id)` row is
updated in place (only its favorited flag can change); otherwise a fresh row
is appended. -/
def save_item_db (db : List SavedRow) (uid : Nat) (it : SaveReq) :
    List SavedRow :=
  if it.item_id = "" || it.item_name = "" then db
  else
    match db.find? (matchesPair uid it.item_id) with
    | some _ => updateFirstFav db uid it.item_id it.favorited
    | none =>
      db ++ [⟨db.length, uid, it.item_id, it.item_name, it.item_type,
        it.item_image, it.item_description, it.favorited⟩]

/-- Number of stored rows for one `(account, external id)` pair. -/
def countPair (db : List SavedRow) (uid : Nat) (iid : String) : Nat :=
  (db.filter (matchesPair uid iid)).length

theorem matchesPair_setFav (uid : Nat) (iid : String) (r : SavedRow) (f : Bool) :
    matchesPair uid iid { r with favorited := f } = matchesPair uid iid r := rfl

theorem countPair_updateFirstFav (db : List SavedRow) (uid : Nat) (iid : String)
    (f : Bool) : countPair (updateFirstFav db uid iid f) uid iid =
      countPair db uid iid := by
  induction db with
  | nil => rfl
  | cons r rs ih =>
    by_cases hm : matchesPair uid iid r = true
    · simp [updateFirstFav, countPair, List.filter_cons, hm, matchesPair_setFav]
    · simp only [Bool.not_eq_true] at hm
      simp [updateFirstFav, countPair, List.filter_cons, hm] at ih ⊢
      exact ih

theorem countPair_eq_zero_of_find?_none (db : List SavedRow) (uid : Nat)
    (iid : String) (h : db.find? (matchesPair uid iid) = none) :
    countPair db uid iid = 0 := by
  rw [List.find?_eq_none] at h
  simp [countPair, List.length_eq_zero, List.filter_eq_nil]
  exact fun r hr => by simpa using h r hr

theorem countPair_pos_of_find?_some (db : List SavedRow) (uid : Nat)
    (iid : String) (r : SavedRow) (h : db.find? (matchesPair uid iid) = some r) :
    0 < countPair db uid iid := by
  have hm := List.find?_some h
  have hmem := List.mem_of_find?_eq_some h
  have : r ∈ db.filter (matchesPair uid iid) := List.mem_filter.mpr ⟨hmem, hm⟩
  exact List.length_pos.mpr (fun hnil => by simp [hnil] at this)

theorem countPair_append_one (db : List SavedRow) (uid : Nat) (iid : String)
    (row : SavedRow) : countPair (db ++ [row]) uid iid =
      countPair db uid iid + (if matchesPair uid iid row then 1 else 0) := by
  by_cases hm : matchesPair uid iid row = true
  · simp [countPair, List.filter_append, hm]
  · simp only [Bool.not_eq_true] at hm
    simp [countPair, List.filter_append, hm]

theorem no_match_of_countPair_zero (db : List SavedRow) (uid : Nat)
    (iid : String) (h : countPair db uid iid = 0) (r : SavedRow) (hr : r ∈ db)
    (hm : matchesPair uid iid r = true) : False := by
  have : r ∈ db.filter (matchesPair uid iid) := List.mem_filter.mpr ⟨hr, hm⟩
  rw [countPair, List.length_eq_zero] at h
  simp [h] at this

theorem updateFirstFav_sets (db : List SavedRow) (uid : Nat) (iid : String)
    (f : Bool) (hc : countPair db uid iid ≤ 1) :
    ∀ r ∈ updateFirstFav db uid iid f, matchesPair uid iid r = true →
      r.favorited = f := by
  induction db with
  | nil => intro r hr; simp [updateFirstFav] at hr
  | cons x xs ih =>
    by_cases hm : matchesPair uid iid x = true
    · have hzero : countPair xs uid iid = 0 := by
        have : countPair (x :: xs) uid iid = countPair xs uid iid + 1 := by
          simp [countPair, List.filter_cons, hm]
        omega
      intro r hr hmr
      rw [updateFirstFav, if_pos hm] at hr
      rcases List.mem_cons.mp hr with h | h
      · subst h; rfl
      · exact absurd hmr
          (by intro hmm
              exact no_match_of_countPair_zero xs uid iid hzero r h hmm)
    · simp only [Bool.not_eq_true] at hm
      have hc' : countPair xs uid iid ≤ 1 := by
        have : countPair (x :: xs) uid iid = countPair xs uid iid := by
          simp [countPair, List.filter_cons, hm]
        omega
      intro r hr hmr
      rw [updateFirstFav, if_neg (by simp [hm])] at hr
      rcases List.mem_cons.mp hr with h | h
      · subst h; simp [hm] at hmr
      · exact ih hc' r h hmr

/-- C4: saving the same `(account, item_id)` pair twice — with the same or
different favorited values — leaves exactly one stored row for that pair,
whose favorited flag equals the latest save; starting from a store honouring
the at-most-one-row invariant, no duplicate row is ever created. -/
theorem save_item_upsert (db : List SavedRow) (uid : Nat)
    (iid nm1 t1 i1 d1 nm2 t2 i2 d2 : String) (f1 f2 : Bool)
    (hne : iid ≠ "") (hn1 : nm1 ≠ "") (hn2 : nm2 ≠ "")
    (hc : countPair db uid iid ≤ 1) :
    countPair (save_item_db (save_item_db db uid ⟨iid, nm1, t1, i1, d1, f1⟩)
        uid ⟨iid, nm2, t2, i2, d2, f2⟩) uid iid = 1 ∧
      ∀ r ∈ save_item_db (save_item_db db uid ⟨iid, nm1, t1, i1, d1, f1⟩)
          uid ⟨iid, nm2, t2, i2, d2, f2⟩,
        matchesPair uid iid r = true → r.favorited = f2 := by
  have heq1none : db.find? (matchesPair uid iid) = none →
      save_item_db db uid ⟨iid, nm1, t1, i1, d1, f1⟩ =
        db ++ [⟨db.length, uid, iid, nm1, t1, i1, d1, f1⟩] := by
    intro hfind
    simp [save_item_db, hne, hn1, hfind]
  have h1 : countPair (save_item_db db uid ⟨iid, nm1, t1, i1, d1, f1⟩)
      uid iid = 1 := by
    cases hfind : db.find? (matchesPair uid iid) with
    | none =>
      rw [heq1none hfind, countPair_append_one,
        countPair_eq_zero_of_find?_none db uid iid hfind]
      simp [matchesPair]
    | some r =>
      have heq : save_item_db db uid ⟨iid, nm1, t1, i1, d1, f1⟩ =
          updateFirstFav db uid iid f1 := by
        simp [save_item_db, hne, hn1, hfind]
      rw [heq, countPair_updateFirstFav]
      have hpos := countPair_pos_of_find?_some db uid iid r hfind
      omega
  obtain ⟨r0, hr0⟩ : ∃ r,
      (save_item_db db uid ⟨iid, nm1, t1, i1, d1, f1⟩).find?
        (matchesPair uid iid) = some r := by
    cases hf : (save_item_db db uid ⟨iid, nm1, t1, i1, d1, f1⟩).find?
        (matchesPair uid iid) with
    | some r => exact ⟨r, rfl⟩
    | none =>
      have := countPair_eq_zero_of_find?_none _ uid iid hf
      omega
  have heq2 : save_item_db (save_item_db db uid ⟨iid, nm1, t1, i1, d1, f1⟩)
      uid ⟨iid, nm2, t2, i2, d2, f2⟩ =
      updateFirstFav (save_item_db db uid ⟨iid, nm1, t1, i1, d1, f1⟩)
        uid iid f2 := by
    generalize hDB : save_item_db db uid ⟨iid, nm1, t1, i1, d1, f1⟩ = db1 at hr0 ⊢
    simp [save_item_db, hne, hn2, hr0]
  rw [heq2]
  constructor
  · rw [countPair_updateFirstFav]; exact h1
  · exact updateFirstFav_sets _ uid iid f2 (le_of_eq h1)

/-- Witness for C4: an empty store, the same item saved twice with the
favorited flag flipped on the second save. -/
theorem save_item_upsert_witness :
    countPair (save_item_db (save_item_db [] 1
        ⟨("m1"), ("Dune"), ("movie"), (""), (""), false⟩) 1
        ⟨("m1"), ("Dune"), ("movie"), (""), (""), true⟩) 1 ("m1") = 1 ∧
      ∀ r ∈ save_item_db (save_item_db [] 1
          ⟨("m1"), ("Dune"), ("movie"), (""), (""), false⟩) 1
          ⟨("m1"), ("Dune"), ("movie"), (""), (""), true⟩,
        matchesPair 1 ("m1") r = true → r.favorited = true :=
  save_item_upsert [] 1 ("m1") ("Dune") ("movie") ("") ("") ("Dune")
    ("movie") ("") ("") false true (by decide) (by decide) (by decide)
    (by decide)

/-- `preferences.get(k)` on the raw request dict of `POST /preferences`
(values are nullable strings; an absent key and an explicit `null` both give
`None`). -/
def prefGet (req : List (String × Option String)) (k : String) :
    Option String :=
  match req.find? (fun p => p.fst == k) with
  | some p => p.snd
  | none => none

/-- Overwriting the five preference columns of the first row belonging to
`uid`, as the handler mutates the row returned by `.first()`
(auth_routes.py lines 157-163). -/
def updatePrefFirst : List PrefRow → Nat → List (String × Option String) →
    List PrefRow
  | [], _, _ => []
  | r :: rs, uid, req =>
    if r.user_id == uid then
      { r with
        movie_name := prefGet req ("movie_name")
        book_name := prefGet req ("book_name")
        place_name := prefGet req ("place_name")
        age := prefGet req ("age")
        gender := prefGet req ("gender") } :: rs
    else r :: updatePrefFirst rs uid req

/-- Database effect of the `POST /preferences` handler for the authenticated
account `uid` (auth_routes.py lines 133-186): update the existing row if
there is one, otherwise insert a new one; every column is taken from the
request dict. -/
def save_preferences (db : List PrefRow) (uid : Nat)
    (req : List (String × Option String)) : List PrefRow :=
  match db.find? (fun r => r.user_id == uid) with
  | some _ => updatePrefFirst db uid req
  | none =>
    db ++ [⟨db.length, uid, prefGet req ("movie_name"),
      prefGet req ("book_name"), prefGet req ("place_name"),
      prefGet req ("age"), prefGet req ("gender")⟩]

theorem find?_updatePrefFirst (db : List PrefRow) (uid : Nat)
    (req : List (String × Option String)) (r : PrefRow)
    (h : db.find? (fun r => r.user_id == uid) = some r) :
    (updatePrefFirst db uid req).find? (fun r => r.user_id == uid) =
      some { r with
        movie_name := prefGet req ("movie_name")
        book_name := prefGet req ("book_name")
        place_name := prefGet req ("place_name")
        age := prefGet req ("age")
        gender := prefGet req ("gender") } := by
  induction db with
  | nil => simp at h
  | cons x xs ih =>
    by_cases hx : x.user_id == uid
    · simp only [List.find?, hx] at h
      injection h with h
      subst h
      rw [updatePrefFirst, if_pos hx]
      simp only [List.find?]
      simp [hx]
    · simp only [Bool.not_eq_true] at hx
      simp only [List.find?, hx] at h
      rw [updatePrefFirst, if_neg (by simp [hx])]
      simp only [List.find?, hx]
      exact ih h

/-- C10: when the account already has a preference row, saving overwrites all
five stored fields with the request values — a field absent from the request
comes back as `None`, never as the previously stored value; only the row id
and owner survive. -/
theorem save_preferences_overwrites (db : List PrefRow) (uid : Nat)
    (req : List (String × Option String)) (r : PrefRow)
    (h : db.find? (fun r => r.user_id == uid) = some r) :
    (save_preferences db uid req).find? (fun r => r.user_id == uid) =
      some { id := r.id, user_id := r.user_id
             movie_name := prefGet req ("movie_name")
             book_name := prefGet req ("book_name")
             place_name := prefGet req ("place_name")
             age := prefGet req ("age")
             gender := prefGet req ("gender") } := by
  rw [save_preferences, h]
  exact find?_updatePrefFirst db uid req r h

/-- Witness for C10: an account with a fully populated row, saved over with a
request dict carrying only `movie_name`; every other field resets to `None`. -/
theorem save_preferences_overwrites_witness :
    (save_preferences
        [⟨7, 1, some ("Heat"), some ("Dune"), some ("Rome"),
          some ("25_to_29"), some ("male")⟩] 1
        [(("movie_name"), some ("Alien"))]).find?
        (fun r => r.user_id == 1) =
      some ⟨7, 1, some ("Alien"), none, none, none, none⟩ :=
  save_preferences_overwrites
    [⟨7, 1, some ("Heat"), some ("Dune"), some ("Rome"),
      some ("25_to_29"), some ("male")⟩] 1
    [(("movie_name"), some ("Alien"))]
    ⟨7, 1, some ("Heat"), some ("Dune"), some ("Rome"),
      some ("25_to_29"), some ("male")⟩ rfl

/-- Python `a or b` on nullable strings: `None` and the empty string are both
falsy, so the right operand is taken in either case. -/
def pyOrS (a b : Option String) : Option String :=
  match a with
  | some s => if s = "" then b else some s
  | none => b

/-- The stored preference row loaded by `get_recommendations` when a user is
authenticated (routes.py lines 248-261); `none` when unauthenticated or when
the account has no row. -/
def storedPrefs (cu : Option Account) (db : DB) : Option PrefRow :=
  match cu with
  | none => none
  | some u => db.prefs.find? (fun r => r.user_id == u.id)

/-- Request body of `POST /recommendations` (`PreferenceInput`,
routes.py lines 32-37). -/
structure PreferenceInput where
  book_name : Option String
  movie_name : Option String
  place_name : Option String
  age : Option String
  gender : Option String

/-- Effective book preference:
`preference.book_name or user_preferences.get("book_name")`
(routes.py line 274). -/
def effBook (req : PreferenceInput) (cu : Option Account) (db : DB) :
    Option String :=
  pyOrS req.book_name ((storedPrefs cu db).bind (fun r => r.book_name))

/-- Effective movie preference (routes.py line 275). -/
def effMovie (req : PreferenceInput) (cu : Option Account) (db : DB) :
    Option String :=
  pyOrS req.movie_name ((storedPrefs cu db).bind (fun r => r.movie_name))

/-- Effective place preference (routes.py line 276). -/
def effPlace (req : PreferenceInput) (cu : Option Account) (db : DB) :
    Option String :=
  pyOrS req.place_name ((storedPrefs cu db).bind (fun r => r.place_name))

/-- Effective age (routes.py line 277). -/
def effAge (req : PreferenceInput) (cu : Option Account) (db : DB) :
    Option String :=
  pyOrS req.age ((storedPrefs cu db).bind (fun r => r.age))

/-- Effective gender (routes.py line 278). -/
def effGender (req : PreferenceInput) (cu : Option Account) (db : DB) :
    Option String :=
  pyOrS req.gender ((storedPrefs cu db).bind (fun r => r.gender))

/-- The favorited saved-item ids loaded for an authenticated user
(routes.py lines 264-268): rows with `favorited=True` whose `item_id` is
truthy. -/
def favoriteIds (cu : Option Account) (db : DB) : List String :=
  match cu with
  | none => []
  | some u =>
    ((db.saved.filter (fun r => r.user_id == u.id && r.favorited)).map
      (fun r => r.item_id)).filter (fun s => decide (s ≠ ""))

/-- Upstream call outcomes one `POST /recommendations` request can observe:
the search calls of `fetch_entity_id` keyed by `(name, type)`, the three
per-domain insights calls, and the popularity-filtered books call. -/
structure RecUpstream where
  search : String → String → HttpOutcome
  insights : String → HttpOutcome
  popular : HttpOutcome

/-- One `if name: id = fetch_entity_id(...); if id: append` step
(routes.py lines 283-296): nothing for a falsy name, nothing for a falsy
resolved id. -/
def resolveSignal (cfg : Config) (up : RecUpstream) (nameOpt : Option String)
    (entityType : String) : List Json :=
  match nameOpt with
  | none => []
  | some s =>
    if s = "" then []
    else
      match fetch_entity_id cfg s entityType (up.search s entityType) with
      | none => []
      | some v => if jsonTruthy v then [v] else []

/-- The explicit-preference part of the signal set, in source order. -/
def prefSignals (req : PreferenceInput) (cu : Option Account) (db : DB)
    (cfg : Config) (up : RecUpstream) : List Json :=
  resolveSignal cfg up (effBook req cu db) ("book") ++
    resolveSignal cfg up (effMovie req cu db) ("movie") ++
      resolveSignal cfg up (effPlace req cu db) ("place")

/-- The full signal set `entity_ids` (routes.py lines 280-300): resolved
preferences, then — when the favorites list is non-empty — the favorite ids. -/
def signalSet (req : PreferenceInput) (cu : Option Account) (db : DB)
    (cfg : Config) (up : RecUpstream) : List Json :=
  prefSignals req cu db cfg up ++
    (if (favoriteIds cu db).isEmpty then []
      else (favoriteIds cu db).map Json.str)

/-- Guarded traversal `data['results']['entities']` of `get_insights`
(routes.py lines 89-95); the guard failing yields `[]`. -/
def insightsParse (body : Json) : Except Unit Json := do
  let c1 ← pyIn ("results") body
  if c1 then do
    let r ← pySubscript body ("results")
    let c2 ← pyIn ("entities") r
    if c2 then pySubscript r ("entities")
    else Except.ok (Json.arr [])
  else Except.ok (Json.arr [])

/-- Embedding of `get_insights` (routes.py lines 70-97): any exception or
dynamic error is swallowed and becomes `[]`, as is a non-ok status. -/
def get_insights (o : HttpOutcome) : Json :=
  match o with
  | HttpOutcome.exn => Json.arr []
  | HttpOutcome.resp ok body =>
    if ok then
      match insightsParse body with
      | Except.ok v => v
      | Except.error _ => Json.arr []
    else Json.arr []

/-- Embedding of `get_popular_books` (routes.py lines 100-125): an insights
call with a popularity filter instead of personal signals; the response
handling is identical to `get_insights`. -/
def get_popular_books (o : HttpOutcome) : Json :=
  get_insights o

/-- Response of `POST /recommendations`. -/
structure RecResponse where
  book_recs : Json
  popular_books : Json
  movie_recs : Json
  tv_show_recs : Json
  message : Option String
deriving Repr

/-- The no-API-key message (routes.py line 310). -/
def msgNoKey : String :=
  "API key not configured. Please set QLOO_API_KEY in your .env file."

/-- The no-preferences message (routes.py line 319). -/
def msgNoPrefs : String :=
  "No preferences found. Please set your preferences first."

/-- Embedding of the `POST /recommendations` handler `get_recommendations`
(routes.py lines 242-333). -/
def get_recommendations (req : PreferenceInput) (cu : Option Account)
    (db : DB) (cfg : Config) (up : RecUpstream) : RecResponse :=
  if (signalSet req cu db cfg up).isEmpty then
    if keyTruthy cfg then
      ⟨Json.arr [], Json.arr [], Json.arr [], Json.arr [], some msgNoPrefs⟩
    else
      ⟨Json.arr [], Json.arr [], Json.arr [], Json.arr [], some msgNoKey⟩
  else
    ⟨get_insights (up.insights ("book")),
      get_popular_books up.popular,
      get_insights (up.insights ("movie")),
      get_insights (up.insights ("tv_show")),
      none⟩

/-- Modelled from the spec words of C1: the effective value of a preference
is "the request-supplied value when present, otherwise the account's stored
PreferenceSet value, otherwise absent". Stated for comparison with the
code's `pyOrS`-based resolution. -/
def specEffectiveValue (reqVal stored : Option String) : Option String :=
  match reqVal with
  | some s => some s
  | none => stored

/-- C1 counterexample: a request that supplies the empty string for
`book_name` while the account has `Dune` stored. The claim's resolution
keeps the request-supplied value; the code's Python `or` treats the present
empty string as absent and falls back to the stored value. -/
theorem eff_pref_counterexample :
    effBook ⟨some (""), none, none, none, none⟩
        (some ⟨1, ("alice"), ("a@x.com"), ("h")⟩)
        ⟨[⟨1, ("alice"), ("a@x.com"), ("h")⟩],
          [⟨1, 1, none, some ("Dune"), none, none, none⟩], []⟩ =
      some ("Dune") ∧
    specEffectiveValue (some ("")) (some ("Dune")) = some ("") ∧
    (some ("Dune") : Option String) ≠ some ("") :=
  ⟨rfl, rfl, by decide⟩

theorem pyOrS_truthy (s : String) (b : Option String) (h : s ≠ "") :
    pyOrS (some s) b = some s := by simp [pyOrS, h]

theorem pyOrS_falsy (a b : Option String)
    (h : a = none ∨ a = some ("")) : pyOrS a b = b := by
  rcases h with h | h <;> subst h <;> simp [pyOrS]

/-- C1 amended: for an authenticated user, the effective value of each of
the five preferences is the request-supplied value when that is present and
non-empty, otherwise the account's stored value (absent when there is no
stored row); and the signal set is always the resolved preference signals
followed by the account's favorited saved-item ids (those with a non-empty
id) — favorites contribute whether or not any explicit preference
resolved. -/
theorem recommendations_effective_prefs_amended (req : PreferenceInput)
    (cu : Option Account) (db : DB) (cfg : Config) (up : RecUpstream)
    (u : Account) (hcu : cu = some u) :
    (∀ s, req.book_name = some s → s ≠ "" → effBook req cu db = some s) ∧
    ((req.book_name = none ∨ req.book_name = some ("")) →
      effBook req cu db = (storedPrefs cu db).bind (fun r => r.book_name)) ∧
    (∀ s, req.movie_name = some s → s ≠ "" → effMovie req cu db = some s) ∧
    ((req.movie_name = none ∨ req.movie_name = some ("")) →
      effMovie req cu db = (storedPrefs cu db).bind (fun r => r.movie_name)) ∧
    (∀ s, req.place_name = some s → s ≠ "" → effPlace req cu db = some s) ∧
    ((req.place_name = none ∨ req.place_name = some ("")) →
      effPlace req cu db = (storedPrefs cu db).bind (fun r => r.place_name)) ∧
    (∀ s, req.age = some s → s ≠ "" → effAge req cu db = some s) ∧
    ((req.age = none ∨ req.age = some ("")) →
      effAge req cu db = (storedPrefs cu db).bind (fun r => r.age)) ∧
    (∀ s, req.gender = some s → s ≠ "" → effGender req cu db = some s) ∧
    ((req.gender = none ∨ req.gender = some ("")) →
      effGender req cu db = (storedPrefs cu db).bind (fun r => r.gender)) ∧
    signalSet req cu db cfg up =
      prefSignals req cu db cfg up ++ (favoriteIds cu db).map Json.str := by
  refine ⟨?_, ?_, ?_, ?_, ?_, ?_, ?_, ?_, ?_, ?_, ?_⟩
  · intro s hs hne; rw [effBook, hs]; exact pyOrS_truthy s _ hne
  · intro h; rw [effBook]; exact pyOrS_falsy _ _ h
  · intro s hs hne; rw [effMovie, hs]; exact pyOrS_truthy s _ hne
  · intro h; rw [effMovie]; exact pyOrS_falsy _ _ h
  · intro s hs hne; rw [effPlace, hs]; exact pyOrS_truthy s _ hne
  · intro h; rw [effPlace]; exact pyOrS_falsy _ _ h
  · intro s hs hne; rw [effAge, hs]; exact pyOrS_truthy s _ hne
  · intro h; rw [effAge]; exact pyOrS_falsy _ _ h
  · intro s hs hne; rw [effGender, hs]; exact pyOrS_truthy s _ hne
  · intro h; rw [effGender]; exact pyOrS_falsy _ _ h
  · cases hl : favoriteIds cu db with
    | nil => rw [signalSet, hl]; simp
    | cons a as => rw [signalSet, hl]; simp

/-- Witness for the C1 amended theorem: a request-supplied non-empty book
name wins over the stored row. -/
theorem recommendations_effective_prefs_amended_witness :
    effBook ⟨some ("Hobbit"), none, none, none, none⟩
        (some ⟨1, ("alice"), ("a@x.com"), ("h")⟩)
        ⟨[⟨1, ("alice"), ("a@x.com"), ("h")⟩],
          [⟨1, 1, none, some ("Dune"), none, none, none⟩], []⟩ =
      some ("Hobbit") :=
  (recommendations_effective_prefs_amended
    ⟨some ("Hobbit"), none, none, none, none⟩
    (some ⟨1, ("alice"), ("a@x.com"), ("h")⟩)
    ⟨[⟨1, ("alice"), ("a@x.com"), ("h")⟩],
      [⟨1, 1, none, some ("Dune"), none, none, none⟩], []⟩
    ⟨none⟩ ⟨fun _ _ => HttpOutcome.exn, fun _ => HttpOutcome.exn,
      HttpOutcome.exn⟩
    ⟨1, ("alice"), ("a@x.com"), ("h")⟩ rfl).1 ("Hobbit") rfl (by decide)

/-- C5: a recommendation request whose resolved signal set is empty gets a
structured response — not an error — with all four lists empty and a message
that distinguishes a missing API key from missing preferences (the two
messages differ). -/
theorem recommendations_no_signals (req : PreferenceInput)
    (cu : Option Account) (db : DB) (cfg : Config) (up : RecUpstream)
    (h : signalSet req cu db cfg up = []) :
    get_recommendations req cu db cfg up =
      ⟨Json.arr [], Json.arr [], Json.arr [], Json.arr [],
        some (if keyTruthy cfg then msgNoPrefs else msgNoKey)⟩ ∧
    msgNoPrefs ≠ msgNoKey := by
  constructor
  · rw [get_recommendations, h]
    by_cases hk : keyTruthy cfg <;> simp [hk]
  · decide

/-- Witness for C5: anonymous request, empty store, no API key. -/
theorem recommendations_no_signals_witness :
    get_recommendations ⟨none, none, none, none, none⟩ none ⟨[], [], []⟩
        ⟨none⟩ ⟨fun _ _ => HttpOutcome.exn, fun _ => HttpOutcome.exn,
          HttpOutcome.exn⟩ =
      ⟨Json.arr [], Json.arr [], Json.arr [], Json.arr [],
        some (if keyTruthy ⟨none⟩ then msgNoPrefs else msgNoKey)⟩ ∧
    msgNoPrefs ≠ msgNoKey :=
  recommendations_no_signals ⟨none, none, none, none, none⟩ none ⟨[], [], []⟩
    ⟨none⟩ ⟨fun _ _ => HttpOutcome.exn, fun _ => HttpOutcome.exn,
      HttpOutcome.exn⟩ rfl

/-- Outcome of one `model.generate_content` call in the `/convert` handler:
either the call raised (with the exception text the outer handler inspects),
or it produced text, modelled post-markdown-stripping by the result of
`json.loads` — `none` when the text is unparseable (`JSONDecodeError`),
`some j` when it parses to `j`. -/
inductive GenOutcome where
  | exn : String → GenOutcome
  | text : Option Json → GenOutcome

/-- The explanation attached to a `/convert` response, as a tag (the Python
strings interpolate values; their exact text is immaterial to the claims). -/
inductive ExplanationMsg where
  | couldNotExtract : ExplanationMsg
  | lowConfidence : Json → ExplanationMsg
  | parseFailed : ExplanationMsg
  | fromModel : Json → ExplanationMsg

/-- Response model of `POST /convert` (gemini_routes.py lines 30-35). -/
structure GeminiResponse where
  success : Bool
  entity_name : Option Json
  entity_type : Option Json
  confidence : Option Json
  explanation : Option ExplanationMsg

/-- The `0.3` confidence threshold (gemini_routes.py line 112). -/
def confThreshold : Rat := 3 / 10

/-- Python `v < c` against a float: numbers and booleans compare, everything
else is a `TypeError`. -/
def pyLtNum (v : Json) (c : Rat) : Except Unit Bool :=
  match v with
  | Json.num q => Except.ok (decide (q < c))
  | Json.bool b => Except.ok (decide ((if b then (1 : Rat) else 0) < c))
  | _ => Except.error ()

/-- The outer exception handler of `/convert` (gemini_routes.py lines
132-149): rate-limit text maps to 429, missing-model text to 503, anything
else to 500. -/
def geminiOuterError (msg : String) : HttpError :=
  if strHasSub ("429") msg || strHasSub ("quota") (msg.toLower) then
    ⟨429, ("Gemini API rate limit exceeded. Please try again later or use exact search mode.")⟩
  else if strHasSub ("404") msg && strHasSub ("model") (msg.toLower) then
    ⟨503, ("Gemini model not available. Please check API configuration.")⟩
  else ⟨500, ("Failed to process natural language query")⟩

/-- Embedding of the `POST /convert` handler `convert_natural_language`
(gemini_routes.py lines 37-149). `modelAvailable` is whether the module-level
model object was constructed. -/
def convert_natural_language (modelAvailable : Bool) (out : GenOutcome) :
    Except HttpError GeminiResponse :=
  if modelAvailable then
    match out with
    | GenOutcome.exn msg => Except.error (geminiOuterError msg)
    | GenOutcome.text none =>
      Except.ok ⟨false, none, none, none, some ExplanationMsg.parseFailed⟩
    | GenOutcome.text (some j) =>
      match j with
      | Json.obj kvs =>
        if !optTruthy (pyNone (objLookup kvs ("entity_name"))) ||
            !optTruthy (pyNone (objLookup kvs ("entity_type"))) then
          Except.ok ⟨false, none, none, none,
            some ExplanationMsg.couldNotExtract⟩
        else
          match pyLtNum ((objLookup kvs ("confidence")).getD (Json.num 0))
              confThreshold with
          | Except.error _ =>
            Except.error ⟨500, ("Failed to process natural language query")⟩
          | Except.ok true =>
            Except.ok ⟨false, none, none, none,
              some (ExplanationMsg.lowConfidence
                ((objLookup kvs ("confidence")).getD (Json.num 0)))⟩
          | Except.ok false =>
            Except.ok ⟨true, pyNone (objLookup kvs ("entity_name")),
              pyNone (objLookup kvs ("entity_type")),
              some ((objLookup kvs ("confidence")).getD (Json.num 0)),
              some (ExplanationMsg.fromModel
                ((objLookup kvs ("explanation")).getD (Json.str (""))))⟩
      | _ =>
        Except.error ⟨500, ("Failed to process natural language query")⟩
  else
    Except.error ⟨503,
      ("Gemini model not available - check API key and model configuration")⟩

/-- C9: unparseable generative output, parsed output whose
`entity_name`/`entity_type` is missing or falsy, and parsed output whose
numeric confidence is below 0.3 are all returned as `success = false`
responses (`Except.ok`, never an error) by the `/convert` handler. -/
theorem convert_failure_modes (kvs : List (String × Json)) (q : Rat) :
    (∃ r, convert_natural_language true (GenOutcome.text none) =
        Except.ok r ∧ r.success = false) ∧
    ((optTruthy (pyNone (objLookup kvs ("entity_name"))) = false ∨
        optTruthy (pyNone (objLookup kvs ("entity_type"))) = false) →
      ∃ r, convert_natural_language true
          (GenOutcome.text (some (Json.obj kvs))) =
        Except.ok r ∧ r.success = false) ∧
    (optTruthy (pyNone (objLookup kvs ("entity_name"))) = true →
      optTruthy (pyNone (objLookup kvs ("entity_type"))) = true →
      (objLookup kvs ("confidence")).getD (Json.num 0) = Json.num q →
      q < confThreshold →
      ∃ r, convert_natural_language true
          (GenOutcome.text (some (Json.obj kvs))) =
        Except.ok r ∧ r.success = false) := by
  refine ⟨⟨_, rfl, rfl⟩, ?_, ?_⟩
  · intro h
    have hcond : (!optTruthy (pyNone (objLookup kvs ("entity_name"))) ||
        !optTruthy (pyNone (objLookup kvs ("entity_type")))) = true := by
      rcases h with h | h <;> simp [h]
    refine ⟨⟨false, none, none, none, some ExplanationMsg.couldNotExtract⟩,
      ?_, rfl⟩
    simp [convert_natural_language, hcond]
  · intro h1 h2 h3 h4
    refine ⟨⟨false, none, none, none,
      some (ExplanationMsg.lowConfidence (Json.num q))⟩, ?_, rfl⟩
    simp [convert_natural_language, h1, h2, h3, pyLtNum, h4]

/-- Witness for C9: a parsed response with entity fields present and
confidence 0, below the 0.3 threshold. -/
theorem convert_failure_modes_witness :
    ∃ r, convert_natural_language true (GenOutcome.text (some (Json.obj
        [(("entity_name"), Json.str ("X")),
          (("entity_type"), Json.str ("movie")),
          (("confidence"), Json.num 0)]))) =
      Except.ok r ∧ r.success = false :=
  (convert_failure_modes
    [(("entity_name"), Json.str ("X")),
      (("entity_type"), Json.str ("movie")),
      (("confidence"), Json.num 0)] 0).2.2 rfl rfl rfl
    (by norm_num [confThreshold])
